import Mathlib

/-!
Formal model of the dustdevil session library (session.py, handler.py).

Conventions of the embedding:
* Python datetime instants are modelled as integer microseconds since the
  epoch; Python timedelta values as integer microseconds.
* Python 2 byte strings are modelled as lists of naturals (one per byte);
  a well-formed byte string has every element below 256.
* The cPickle and base64 library calls used by BaseSession.serialize and
  BaseSession.deserialize are modelled concretely below, by an executable
  encoder together with an executable decoder that is proved to be its
  left inverse, matching the documented contract of those libraries.
* Backend media (CSV file, session directory, MySQL table, Redis and
  Memcached connections, MongoDB collection) are modelled as explicit
  values threaded through the operations; a Python exception is modelled
  with Except.
-/

/-- Python datetime instants, as integer microseconds since the epoch. -/
abbrev PyDateTime := Int

/-- Python timedelta values, as integer microseconds. -/
abbrev PyTimedelta := Int

/-- Python 2 byte strings, as lists of byte values. -/
abbrev PyStr := List Nat

/-- Number of microseconds in one second. -/
def usPerSecond : Int := 1000000

/-- Number of microseconds in one day. -/
def usPerDay : Int := 86400000000

/-- The seconds attribute of a Python timedelta.  Python normalises a
timedelta so that 0 <= seconds < 86400, with the day count (possibly
negative) absorbing the rest; Python floor division and modulus agree
with Int.ediv and Int.emod. -/
def timedeltaSecondsAttr (t : PyTimedelta) : Int :=
  (t.emod usPerDay).ediv usPerSecond

/-- The value of a decimal digit string, as computed by the Python int
builtin on a string of digit characters (byte 48 is the zero digit). -/
def pyIntOfDigits (ds : List Nat) : Int :=
  ds.foldl (fun acc d => 10 * acc + ((d : Int) - 48)) 0

/-- A Python value appearing in the duration and regeneration_interval
slots: a datetime.timedelta, an int, a decimal string, or None standing
for an absent or otherwise unrecognised value (the final else branch of
the conversion in session.py treats every remaining case alike). -/
inductive PyDuration where
  | td (us : PyTimedelta)
  | pyint (n : Int)
  | pystr (digits : List Nat)
  | pynone
deriving DecidableEq, Inhabited, Repr

/-- Microseconds of a duration already converted to a timedelta. -/
def PyDuration.micros : PyDuration → Int
  | .td us => us
  | .pyint n => n * usPerSecond
  | .pystr ds => pyIntOfDigits ds * usPerSecond
  | .pynone => 0

/-- BaseSession._is_expired, session.py lines 212 to 214: the session is
expired when now is strictly after the expires instant. -/
def BaseSession._is_expired (now expires : PyDateTime) : Bool :=
  decide (now > expires)

/-- BaseSession._should_regenerate, session.py lines 230 to 232. -/
def BaseSession._should_regenerate (now next_regeneration : PyDateTime) : Bool :=
  decide (now > next_regeneration)

/-- BaseSession._expires_at, session.py lines 216 to 228: converts the
stored duration value to a timedelta (falling back to 900 seconds),
stores the converted value back, and returns now plus the duration.
The first component is the value written back to self.duration, the
second is the returned datetime. -/
def BaseSession._expires_at (now : PyDateTime) (duration : PyDuration) :
    PyDuration × PyDateTime :=
  let d : PyDuration :=
    match duration with
    | .td us => .td us
    | .pyint n => .td (n * usPerSecond)
    | .pystr ds => .td (pyIntOfDigits ds * usPerSecond)
    | .pynone => .td (900 * usPerSecond)
  (d, now + d.micros)

/-- BaseSession._next_regeneration_at, session.py lines 234 to 251: the
same conversion with a 240 second fallback, applied to the stored
regeneration_interval; returns the converted value and now plus it. -/
def BaseSession._next_regeneration_at (now : PyDateTime)
    (regeneration_interval : PyDuration) : PyDuration × PyDateTime :=
  let v : PyDuration :=
    match regeneration_interval with
    | .td us => .td us
    | .pyint n => .td (n * usPerSecond)
    | .pystr ds => .td (pyIntOfDigits ds * usPerSecond)
    | .pynone => .td (240 * usPerSecond)
  (v, now + v.micros)

/-- The state of a BaseSession object (session.py lines 155 to 181)
that is visible to the lifecycle and storage operations.  The data
mapping is modelled as an association list from byte strings to byte
strings. -/
structure SessionState where
  session_id : PyStr
  data : List (PyStr × PyStr)
  duration : PyDuration
  expires : PyDateTime
  dirty : Bool
  ip_address : PyStr
  user_agent : PyStr
  security_model : List PyStr
  regeneration_interval : PyDuration
  next_regeneration : PyDateTime
deriving DecidableEq, Inhabited, Repr

/-- BaseSession.__init__ without a session_id argument (the fresh branch,
session.py lines 166 to 171 and 173 to 177): generate an id, start with
empty data, normalise the duration and the regeneration interval, and
mark the record dirty.  The generated random id is passed in as genId. -/
def BaseSession.new (genId : PyStr) (now : PyDateTime)
    (duration regeneration_interval : PyDuration)
    (ip_address user_agent : PyStr) (security_model : List PyStr) :
    SessionState :=
  let de := BaseSession._expires_at now duration
  let rn := BaseSession._next_regeneration_at now regeneration_interval
  { session_id := genId
    data := []
    duration := de.1
    expires := de.2
    dirty := true
    ip_address := ip_address
    user_agent := user_agent
    security_model := security_model
    regeneration_interval := rn.1
    next_regeneration := rn.2 }

/-! ### Byte-level encoding primitives

The cPickle library is modelled by an executable encoder for the exact
dictionary shape built in BaseSession.serialize (session.py lines 312
to 322) together with a decoder proved to be its left inverse, which is
the documented contract of pickle.dumps and pickle.loads on such values.
Naturals are written as little-endian base-255 digits closed by a 255
byte; byte strings are length-prefixed. -/

/-- Little-endian base-255 digits of a natural number, computed with a
structural fuel argument so that the kernel can evaluate it; fuel n is
always sufficient for n. -/
def natDigitsAux : Nat → Nat → List Nat
  | _, 0 => []
  | 0, _ + 1 => []
  | fuel + 1, n + 1 => ((n + 1) % 255) :: natDigitsAux fuel ((n + 1) / 255)

/-- Little-endian base-255 digits of a natural number. -/
def natDigits (n : Nat) : List Nat := natDigitsAux n n

/-- Value of a little-endian base-255 digit list. -/
def natFromDigits : List Nat → Nat
  | [] => 0
  | d :: ds => d + 255 * natFromDigits ds

/-- Encoding of a natural: its digits closed by a 255 terminator byte. -/
def natEncode (n : Nat) : List Nat := natDigits n ++ [255]

/-- Reads digit bytes up to the 255 terminator. -/
def parseNatAux : List Nat → Option (List Nat × List Nat)
  | [] => none
  | b :: bs =>
    if b = 255 then some ([], bs)
    else
      match parseNatAux bs with
      | some (ds, rest) => some (b :: ds, rest)
      | none => none

/-- Decodes a natural encoded by natEncode, returning the remainder. -/
def parseNat (bs : List Nat) : Option (Nat × List Nat) :=
  match parseNatAux bs with
  | some (ds, rest) => some (natFromDigits ds, rest)
  | none => none

/-- Encoding of an integer: a sign byte then the magnitude. -/
def intEncode (n : Int) : List Nat :=
  if n < 0 then 1 :: natEncode (-n).toNat else 0 :: natEncode n.toNat

/-- Decodes an integer encoded by intEncode. -/
def parseInt (bs : List Nat) : Option (Int × List Nat) :=
  match bs with
  | 0 :: rest =>
    match parseNat rest with
    | some (m, r) => some ((m : Int), r)
    | none => none
  | 1 :: rest =>
    match parseNat rest with
    | some (m, r) => some (-(m : Int), r)
    | none => none
  | _ => none

/-- Encoding of a byte string: its length then its bytes. -/
def strEncode (s : PyStr) : List Nat := natEncode s.length ++ s

/-- Decodes a byte string encoded by strEncode. -/
def parseStr (bs : List Nat) : Option (PyStr × List Nat) :=
  match parseNat bs with
  | some (n, rest) =>
    if n ≤ rest.length then some (rest.take n, rest.drop n) else none
  | none => none

/-- The dictionary built by BaseSession.serialize, session.py lines 312
to 321: the nine captured fields of a session record.  Values stored in
the data mapping are modelled as byte strings. -/
structure SessionDump where
  session_id : PyStr
  data : List (PyStr × PyStr)
  duration : PyDuration
  expires : PyDateTime
  ip_address : PyStr
  user_agent : PyStr
  security_model : List PyStr
  regeneration_interval : PyDuration
  next_regeneration : PyDateTime
deriving DecidableEq, Inhabited, Repr

/-- The dump dictionary captured from a session state, field for field
as in session.py lines 313 to 321. -/
def dumpOf (s : SessionState) : SessionDump :=
  { session_id := s.session_id
    data := s.data
    duration := s.duration
    expires := s.expires
    ip_address := s.ip_address
    user_agent := s.user_agent
    security_model := s.security_model
    regeneration_interval := s.regeneration_interval
    next_regeneration := s.next_regeneration }

/-- Byte spelling of the dictionary key session_id. -/
def key_session_id : PyStr := [115, 101, 115, 115, 105, 111, 110, 95, 105, 100]

/-- Byte spelling of the dictionary key data. -/
def key_data : PyStr := [100, 97, 116, 97]

/-- Byte spelling of the dictionary key duration. -/
def key_duration : PyStr := [100, 117, 114, 97, 116, 105, 111, 110]

/-- Byte spelling of the dictionary key expires. -/
def key_expires : PyStr := [101, 120, 112, 105, 114, 101, 115]

/-- Byte spelling of the dictionary key ip_address. -/
def key_ip_address : PyStr := [105, 112, 95, 97, 100, 100, 114, 101, 115, 115]

/-- Byte spelling of the dictionary key user_agent. -/
def key_user_agent : PyStr := [117, 115, 101, 114, 95, 97, 103, 101, 110, 116]

/-- Byte spelling of the dictionary key security_model. -/
def key_security_model : PyStr :=
  [115, 101, 99, 117, 114, 105, 116, 121, 95, 109, 111, 100, 101, 108]

/-- Byte spelling of the dictionary key regeneration_interval. -/
def key_regeneration_interval : PyStr :=
  [114, 101, 103, 101, 110, 101, 114, 97, 116, 105, 111, 110, 95, 105, 110,
   116, 101, 114, 118, 97, 108]

/-- Byte spelling of the dictionary key next_regeneration. -/
def key_next_regeneration : PyStr :=
  [110, 101, 120, 116, 95, 114, 101, 103, 101, 110, 101, 114, 97, 116, 105,
   111, 110]

/-- Tagged encoding of a duration slot value: tag 0 string, 1 int,
2 None, 4 timedelta. -/
def durationEncode : PyDuration → List Nat
  | .td us => 4 :: intEncode us
  | .pyint n => 1 :: intEncode n
  | .pystr ds => 0 :: strEncode ds
  | .pynone => [2]

/-- Decodes a duration slot value. -/
def parseDuration (bs : List Nat) : Option (PyDuration × List Nat) :=
  match bs with
  | 4 :: rest => (parseInt rest).map (fun p => (.td p.1, p.2))
  | 1 :: rest => (parseInt rest).map (fun p => (.pyint p.1, p.2))
  | 0 :: rest => (parseStr rest).map (fun p => (.pystr p.1, p.2))
  | 2 :: rest => some (.pynone, rest)
  | _ => none

/-- Concatenated encoding of the data dictionary entries. -/
def dataEntriesEncode : List (PyStr × PyStr) → List Nat
  | [] => []
  | e :: es => strEncode e.1 ++ strEncode e.2 ++ dataEntriesEncode es

/-- Encoding of the data dictionary: tag 5, entry count, entries. -/
def dataEncode (entries : List (PyStr × PyStr)) : List Nat :=
  5 :: natEncode entries.length ++ dataEntriesEncode entries

/-- Decodes a given number of data dictionary entries. -/
def parseDataEntries : Nat → List Nat → Option (List (PyStr × PyStr) × List Nat)
  | 0, bs => some ([], bs)
  | n + 1, bs =>
    match parseStr bs with
    | some (k, r1) =>
      match parseStr r1 with
      | some (v, r2) =>
        match parseDataEntries n r2 with
        | some (es, r3) => some ((k, v) :: es, r3)
        | none => none
      | none => none
    | none => none

/-- Decodes a data dictionary. -/
def parseData (bs : List Nat) : Option (List (PyStr × PyStr) × List Nat) :=
  match bs with
  | 5 :: rest =>
    match parseNat rest with
    | some (n, r) => parseDataEntries n r
    | none => none
  | _ => none

/-- Concatenated encoding of the items of a list of byte strings. -/
def strItemsEncode : List PyStr → List Nat
  | [] => []
  | s :: ss => strEncode s ++ strItemsEncode ss

/-- Encoding of a list of byte strings: tag 6, item count, items. -/
def strListEncode (items : List PyStr) : List Nat :=
  6 :: natEncode items.length ++ strItemsEncode items

/-- Decodes a given number of byte string items. -/
def parseStrItems : Nat → List Nat → Option (List PyStr × List Nat)
  | 0, bs => some ([], bs)
  | n + 1, bs =>
    match parseStr bs with
    | some (s, r1) =>
      match parseStrItems n r1 with
      | some (ss, r2) => some (s :: ss, r2)
      | none => none
    | none => none

/-- Decodes a list of byte strings. -/
def parseStrList (bs : List Nat) : Option (List PyStr × List Nat) :=
  match bs with
  | 6 :: rest =>
    match parseNat rest with
    | some (n, r) => parseStrItems n r
    | none => none
  | _ => none

/-- Expects a fixed dictionary key next in the stream. -/
def parseKey (key : PyStr) (bs : List Nat) : Option (List Nat) :=
  match parseStr bs with
  | some (k, rest) => if k = key then some rest else none
  | none => none

/-- Decodes a tagged byte string (tag 0). -/
def parseTagStr (bs : List Nat) : Option (PyStr × List Nat) :=
  match bs with
  | 0 :: rest => parseStr rest
  | _ => none

/-- Decodes a tagged datetime (tag 3). -/
def parseTagDateTime (bs : List Nat) : Option (PyDateTime × List Nat) :=
  match bs with
  | 3 :: rest => parseInt rest
  | _ => none

/-- The model of cPickle.dumps on the dump dictionary of
BaseSession.serialize: a dictionary marker and count followed by the
nine keys, each a length-prefixed byte string followed by its tagged
value. -/
def pickleDumps (d : SessionDump) : List Nat :=
  5 :: natEncode 9
    ++ strEncode key_session_id ++ 0 :: strEncode d.session_id
    ++ strEncode key_data ++ dataEncode d.data
    ++ strEncode key_duration ++ durationEncode d.duration
    ++ strEncode key_expires ++ 3 :: intEncode d.expires
    ++ strEncode key_ip_address ++ 0 :: strEncode d.ip_address
    ++ strEncode key_user_agent ++ 0 :: strEncode d.user_agent
    ++ strEncode key_security_model ++ strListEncode d.security_model
    ++ strEncode key_regeneration_interval
    ++ durationEncode d.regeneration_interval
    ++ strEncode key_next_regeneration ++ 3 :: intEncode d.next_regeneration

/-- The model of cPickle.loads on such a payload; any structural
mismatch yields none, standing for an unpickling exception. -/
def pickleLoads (bs : List Nat) : Option SessionDump :=
  match bs with
  | 5 :: r =>
    match parseNat r with
    | some (9, r) =>
      match parseKey key_session_id r with
      | some r =>
        match parseTagStr r with
        | some (sid, r) =>
          match parseKey key_data r with
          | some r =>
            match parseData r with
            | some (dat, r) =>
              match parseKey key_duration r with
              | some r =>
                match parseDuration r with
                | some (dur, r) =>
                  match parseKey key_expires r with
                  | some r =>
                    match parseTagDateTime r with
                    | some (exp, r) =>
                      match parseKey key_ip_address r with
                      | some r =>
                        match parseTagStr r with
                        | some (ip, r) =>
                          match parseKey key_user_agent r with
                          | some r =>
                            match parseTagStr r with
                            | some (ua, r) =>
                              match parseKey key_security_model r with
                              | some r =>
                                match parseStrList r with
                                | some (sec, r) =>
                                  match parseKey key_regeneration_interval r with
                                  | some r =>
                                    match parseDuration r with
                                    | some (ri, r) =>
                                      match parseKey key_next_regeneration r with
                                      | some r =>
                                        match parseTagDateTime r with
                                        | some (nr, _) =>
                                          some { session_id := sid,
                                                 data := dat,
                                                 duration := dur,
                                                 expires := exp,
                                                 ip_address := ip,
                                                 user_agent := ua,
                                                 security_model := sec,
                                                 regeneration_interval := ri,
                                                 next_regeneration := nr }
                                        | none => none
                                      | none => none
                                    | none => none
                                  | none => none
                                | none => none
                              | none => none
                            | none => none
                          | none => none
                        | none => none
                      | none => none
                    | none => none
                  | none => none
                | none => none
              | none => none
            | none => none
          | none => none
        | none => none
      | none => none
    | _ => none
  | _ => none

/-! ### Base64 model

The base64.encodestring and base64.decodestring library calls are
modelled concretely: encodestring emits standard base64 in chunks of 57
input bytes, each chunk followed by a newline and, for a final partial
group, equals-sign padding; decodestring drops every byte outside the
base64 alphabet and rebuilds the bytes from the remaining sextets, which
is how binascii treats newlines and padding. -/

/-- The base64 alphabet character for a sextet value. -/
def b64char (x : Nat) : Nat :=
  if x < 26 then 65 + x
  else if x < 52 then 97 + (x - 26)
  else if x < 62 then 48 + (x - 52)
  else if x = 62 then 43
  else 47

/-- The sextet value of a base64 alphabet character. -/
def b64val (c : Nat) : Nat :=
  if 65 ≤ c ∧ c ≤ 90 then c - 65
  else if 97 ≤ c ∧ c ≤ 122 then 26 + (c - 97)
  else if 48 ≤ c ∧ c ≤ 57 then 52 + (c - 48)
  else if c = 43 then 62
  else if c = 47 then 63
  else 0

/-- Whether a byte is a base64 alphabet character. -/
def isB64 (c : Nat) : Bool :=
  decide ((65 ≤ c ∧ c ≤ 90) ∨ (97 ≤ c ∧ c ≤ 122) ∨ (48 ≤ c ∧ c ≤ 57) ∨
    c = 43 ∨ c = 47)

/-- Splits bytes into six-bit groups, three bytes to four sextets, with
a short final group for a trailing one or two bytes. -/
def bytesToSextets : List Nat → List Nat
  | [] => []
  | [b1] => [b1 / 4, b1 % 4 * 16]
  | [b1, b2] => [b1 / 4, b1 % 4 * 16 + b2 / 16, b2 % 16 * 4]
  | b1 :: b2 :: b3 :: rest =>
    b1 / 4 :: (b1 % 4 * 16 + b2 / 16) :: (b2 % 16 * 4 + b3 / 64) :: b3 % 64 ::
      bytesToSextets rest

/-- Rebuilds bytes from six-bit groups, four sextets to three bytes,
with one or two bytes from a final short group. -/
def sextetsToBytes : List Nat → List Nat
  | s1 :: s2 :: s3 :: s4 :: rest =>
    (s1 * 4 + s2 / 16) :: (s2 % 16 * 16 + s3 / 4) :: (s3 % 4 * 64 + s4) ::
      sextetsToBytes rest
  | [s1, s2, s3] => [s1 * 4 + s2 / 16, s2 % 16 * 16 + s3 / 4]
  | [s1, s2] => [s1 * 4 + s2 / 16]
  | _ => []

/-- Padding characters appended for a final partial three-byte group. -/
def padChars (n : Nat) : List Nat :=
  if n % 3 = 1 then [61, 61] else if n % 3 = 2 then [61] else []

/-- The binascii.b2a_base64 model: alphabet characters for the sextets,
padding, and a closing newline. -/
def b2a_base64 (s : List Nat) : List Nat :=
  (bytesToSextets s).map b64char ++ padChars s.length ++ [10]

/-- base64.encodestring, processing 57-byte chunks; the fuel argument
keeps the recursion structural, and fuel equal to the input length is
always sufficient. -/
def encodestringAux : Nat → List Nat → List Nat
  | _, [] => []
  | 0, s => b2a_base64 s
  | fuel + 1, s => b2a_base64 (s.take 57) ++ encodestringAux fuel (s.drop 57)

/-- base64.encodestring as used by BaseSession.serialize. -/
def encodestring (s : List Nat) : List Nat := encodestringAux s.length s

/-- base64.decodestring as used by BaseSession.deserialize: bytes
outside the alphabet are dropped and the sextets are reassembled. -/
def decodestring (s : List Nat) : List Nat :=
  sextetsToBytes ((s.filter isB64).map b64val)

/-! ### Well-formed byte strings and the serialization round trip -/

/-- A well-formed Python 2 byte string: every byte below 256. -/
def StrOk (s : PyStr) : Prop := ∀ b ∈ s, b < 256

instance (s : PyStr) : Decidable (StrOk s) :=
  inferInstanceAs (Decidable (∀ b ∈ s, b < 256))

/-- A well-formed duration slot value: a string value has well-formed
bytes; the other shapes are always well formed. -/
def PyDuration.Ok : PyDuration → Prop
  | .pystr ds => ∀ b ∈ ds, b < 256
  | _ => True

instance (d : PyDuration) : Decidable d.Ok :=
  match d with
  | .td _ => .isTrue trivial
  | .pyint _ => .isTrue trivial
  | .pystr ds => inferInstanceAs (Decidable (∀ b ∈ ds, b < 256))
  | .pynone => .isTrue trivial

/-- A well-formed dump: every byte string it carries is well formed. -/
def DumpOk (d : SessionDump) : Prop :=
  StrOk d.session_id ∧ (∀ e ∈ d.data, StrOk e.1 ∧ StrOk e.2) ∧
    d.duration.Ok ∧ StrOk d.ip_address ∧ StrOk d.user_agent ∧
    (∀ s ∈ d.security_model, StrOk s) ∧ d.regeneration_interval.Ok

instance (d : SessionDump) : Decidable (DumpOk d) := by
  unfold DumpOk
  infer_instance

/-- A well-formed session state: its captured dump is well formed. -/
def SessionOk (s : SessionState) : Prop := DumpOk (dumpOf s)

instance (s : SessionState) : Decidable (SessionOk s) :=
  inferInstanceAs (Decidable (DumpOk (dumpOf s)))

/-- BaseSession.serialize, session.py lines 312 to 322: capture the nine
fields into the dump dictionary, pickle it and base64 encode it. -/
def BaseSession.serialize (s : SessionState) : List Nat :=
  encodestring (pickleDumps (dumpOf s))

/-- BaseSession.deserialize, session.py lines 324 to 326: base64 decode
then unpickle; none stands for an unpickling exception. -/
def BaseSession.deserialize (bs : List Nat) : Option SessionDump :=
  pickleLoads (decodestring bs)

set_option maxRecDepth 10000

/-- A concrete well-formed session record used by witnesses. -/
def exSession : SessionState :=
  { session_id := [97, 98, 99]
    data := [([107, 49], [118, 49]), ([107, 50], [118, 50])]
    duration := .pyint 900
    expires := 1500000000000000
    dirty := true
    ip_address := [49, 46, 50, 46, 51, 46, 52]
    user_agent := [85, 65]
    security_model := [[115]]
    regeneration_interval := .td 240000000
    next_regeneration := 1500000240000000 }

/-! ### Storage backend models -/

/-- A Python exception reaching the modelled code. -/
inductive PyExc where
  | ioError
  | unpicklingError
  | nameError
  | transportError
  | notImplementedError
deriving DecidableEq, Repr

/-- Epoch seconds of a datetime, as int(time.mktime(t.timetuple()))
computes them: the timetuple drops the microseconds. -/
def epochSeconds (t : PyDateTime) : Int := t.ediv usPerSecond

/-- A stored row with the five columns shared by the file, directory
and MySQL backends: session_id, serialized payload, expiry in epoch
seconds, ip address and user agent. -/
structure StoredRow where
  session_id : PyStr
  data : List Nat
  expires : Int
  ip_address : PyStr
  user_agent : PyStr
deriving DecidableEq, Inhabited, Repr

/-- The row written for a session record by the save methods. -/
def rowOf (s : SessionState) : StoredRow :=
  { session_id := s.session_id
    data := BaseSession.serialize s
    expires := epochSeconds s.expires
    ip_address := s.ip_address
    user_agent := s.user_agent }

/-- Reconstruction of a session object from a stored dump, as done by
every load method: it calls the constructor with the deserialized
keyword arguments, and BaseSession.__init__ with a session_id present
(session.py lines 160 to 165 and 173 to 177) keeps every stored field
and marks the record clean. -/
def sessionOfDump (d : SessionDump) : SessionState :=
  { session_id := d.session_id
    data := d.data
    duration := d.duration
    expires := d.expires
    dirty := false
    ip_address := d.ip_address
    user_agent := d.user_agent
    security_model := d.security_model
    regeneration_interval := d.regeneration_interval
    next_regeneration := d.next_regeneration }

/-- FileSession.save, session.py lines 344 to 380: a no-op unless the
record is dirty; otherwise every row with the same session_id is
rewritten to the fresh row, the row is appended if no line matched, and
the dirty flag is cleared. -/
def FileSession.save (s : SessionState) (rows : List StoredRow) :
    SessionState × List StoredRow :=
  if s.dirty = false then (s, rows)
  else
    let written := rows.map
      (fun r => if r.session_id = s.session_id then rowOf s else r)
    let found := rows.any (fun r => decide (r.session_id = s.session_id))
    ({ s with dirty := false }, if found then written else written ++ [rowOf s])

/-- FileSession.load, session.py lines 382 to 397, split into the body
running inside the try block; the file argument is the outcome of
opening and reading the CSV file, with error standing for an IO
failure, and a payload that does not deserialize raises. -/
def FileSession.loadCore (session_id : PyStr)
    (file : Except PyExc (List StoredRow)) :
    Except PyExc (Option SessionState) :=
  match file with
  | .error e => .error e
  | .ok rows =>
    match rows.find? (fun r => decide (r.session_id = session_id)) with
    | some row =>
      match BaseSession.deserialize row.data with
      | some dump => .ok (some (sessionOfDump dump))
      | none => .error .unpicklingError
    | none => .ok none

/-- FileSession.load: the bare except turns any exception into None. -/
def FileSession.load (session_id : PyStr)
    (file : Except PyExc (List StoredRow)) : Option SessionState :=
  match FileSession.loadCore session_id file with
  | .ok r => r
  | .error _ => none

/-- FileSession.delete_expired, session.py lines 417 to 432: rewrites
the file keeping exactly the lines whose expires column is strictly
greater than the current epoch time. -/
def FileSession.delete_expired (now : Int) : List StoredRow → List StoredRow
  | [] => []
  | row :: rest =>
    if row.expires > now then row :: FileSession.delete_expired now rest
    else FileSession.delete_expired now rest

/-- DirSession.delete_expired, session.py lines 487 to 499: the session
directory is modelled as filename to row content; a file is removed
exactly when its expires column is strictly below the current epoch
time. -/
def DirSession.delete_expired (now : Int) :
    List (PyStr × StoredRow) → List (PyStr × StoredRow)
  | [] => []
  | f :: fs =>
    if f.2.expires < now then DirSession.delete_expired now fs
    else f :: DirSession.delete_expired now fs

/-- The document stored by the MongoDB backend, session.py lines 699 to
714: session_id, serialized payload, expiry epoch seconds, user agent. -/
structure MongoDoc where
  session_id : PyStr
  data : List Nat
  expires : Int
  user_agent : PyStr
deriving DecidableEq, Inhabited, Repr

/-- The document written for a session record. -/
def mongoDocOf (s : SessionState) : MongoDoc :=
  { session_id := s.session_id
    data := BaseSession.serialize s
    expires := epochSeconds s.expires
    user_agent := s.user_agent }

/-- A MongoDB update with the upsert flag and an equality criteria on
session_id: replaces the first matching document, or appends the
document if none matches. -/
def mongoUpsert (sid : PyStr) (doc : MongoDoc) : List MongoDoc → List MongoDoc
  | [] => [doc]
  | d :: ds =>
    if d.session_id = sid then doc :: ds else d :: mongoUpsert sid doc ds

/-- MongoDBSession.save, session.py lines 699 to 715: upserts the
document keyed by session_id; note that, unlike the other backends, it
neither checks nor clears the dirty flag. -/
def MongoDBSession.save (s : SessionState) (db : List MongoDoc) :
    SessionState × List MongoDoc :=
  (s, mongoUpsert s.session_id (mongoDocOf s) db)

/-- MongoDBSession.delete_expired, session.py lines 737 to 739: a bulk
remove of every document whose expires field is less than or equal to
the current epoch time. -/
def MongoDBSession.delete_expired (now : Int) : List MongoDoc → List MongoDoc
  | [] => []
  | d :: ds =>
    if d.expires ≤ now then MongoDBSession.delete_expired now ds
    else d :: MongoDBSession.delete_expired now ds

/-- MySQLSession.save, session.py lines 538 to 557: a no-op unless the
record is dirty; otherwise an insert-on-duplicate-key-update of the row
keyed by session_id, after which the dirty flag is cleared. -/
def MySQLSession.save (s : SessionState) (db : List StoredRow) :
    SessionState × List StoredRow :=
  if s.dirty = false then (s, db)
  else
    let written := db.map
      (fun r => if r.session_id = s.session_id then rowOf s else r)
    let found := db.any (fun r => decide (r.session_id = s.session_id))
    ({ s with dirty := false }, if found then written else written ++ [rowOf s])

/-- MySQLSession.delete, session.py lines 576 to 579: removes every row
with the session id of the record. -/
def MySQLSession.delete (s : SessionState) (db : List StoredRow) :
    List StoredRow :=
  db.filter (fun r => decide (¬ r.session_id = s.session_id))

/-- MySQLSession.delete_expired, session.py lines 581 to 584: removes
every row whose expires column is strictly below the current epoch
time. -/
def MySQLSession.delete_expired (now : Int) (db : List StoredRow) :
    List StoredRow :=
  db.filter (fun r => decide (¬ r.expires < now))

/-- A MySQL connection as seen by load: the select for a session id
either raises (transport failure) or returns at most one row. -/
structure MySQLConn where
  getResult : PyStr → Except PyExc (Option StoredRow)

/-- The connection view of a concrete table state. -/
def connOfDb (db : List StoredRow) : MySQLConn :=
  ⟨fun sid => .ok (db.find? (fun r => decide (r.session_id = sid)))⟩

/-- MySQLSession.load, session.py lines 559 to 574, split into the body
of the try block.  When the select returns no row, the final return
statement reads the never-assigned session_object name and raises a
NameError; a payload that does not deserialize also raises. -/
def MySQLSession.loadCore (session_id : PyStr) (connection : MySQLConn) :
    Except PyExc (Option SessionState) :=
  match connection.getResult session_id with
  | .error e => .error e
  | .ok (some row) =>
    match BaseSession.deserialize row.data with
    | some dump => .ok (some (sessionOfDump dump))
    | none => .error .unpicklingError
  | .ok none => .error .nameError

/-- MySQLSession.load: the bare except turns any exception into None. -/
def MySQLSession.load (session_id : PyStr) (connection : MySQLConn) :
    Option SessionState :=
  match MySQLSession.loadCore session_id connection with
  | .ok r => r
  | .error _ => none

/-- A Redis connection as seen by load: the exists and get calls each
either raise (transport failure) or answer. -/
structure RedisConn where
  existsResult : PyStr → Except PyExc Int
  getResult : PyStr → Except PyExc (List Nat)

/-- RedisSession.load, session.py lines 635 to 645: the existence check
runs outside the try block, so an exception there propagates to the
caller; an exception from the get or from deserializing the part of the
value before the first colon is caught and yields None. -/
def RedisSession.load (session_id : PyStr) (connection : RedisConn) :
    Except PyExc (Option SessionState) :=
  match connection.existsResult session_id with
  | .error e => .error e
  | .ok n =>
    if n = 1 then
      match connection.getResult session_id with
      | .error _ => .ok none
      | .ok value =>
        match BaseSession.deserialize
            (value.takeWhile (fun b => decide (¬ b = 58))) with
        | some dump => .ok (some (sessionOfDump dump))
        | none => .ok none
    else .ok none

/-- Decimal digits of a positive natural, most significant first, with
a structural fuel argument; fuel n is always sufficient for n. -/
def decimalDigitsAux : Nat → Nat → List Nat
  | _, 0 => []
  | 0, _ + 1 => []
  | fuel + 1, n + 1 =>
    decimalDigitsAux fuel ((n + 1) / 10) ++ [48 + (n + 1) % 10]

/-- The str builtin on an integer, as ASCII bytes. -/
def pyStrOfInt (n : Int) : List Nat :=
  if n < 0 then 45 :: decimalDigitsAux (-n).toNat (-n).toNat
  else if n = 0 then [48]
  else decimalDigitsAux n.toNat n.toNat

/-- A Memcached connection state: each key holds a value and the
timeout it was stored with. -/
def McState := List (PyStr × List Nat × Int)

/-- The pylibmc set call: stores value and timeout under the key,
replacing any previous entry. -/
def mcSet (key : PyStr) (value : List Nat) (time : Int) (st : McState) :
    McState :=
  (key, value, time) :: st.filter (fun e => decide (¬ e.1 = key))

/-- MemcachedSession.save, session.py lines 776 to 793: a no-op unless
the record is dirty; otherwise the colon-joined value is stored under
the session id with the per-key timeout set to the seconds attribute of
the timedelta between the expiry instant and the current time, and the
dirty flag is cleared. -/
def MemcachedSession.save (now : PyDateTime) (s : SessionState)
    (connection : McState) : SessionState × McState :=
  if s.dirty = false then (s, connection)
  else
    let value := BaseSession.serialize s
      ++ 58 :: pyStrOfInt (epochSeconds s.expires)
      ++ 58 :: s.ip_address ++ 58 :: s.user_agent
    let live_sec : PyTimedelta := s.expires - now
    ({ s with dirty := false },
      mcSet s.session_id value (timedeltaSecondsAttr live_sec) connection)

/-- MemcachedSession.delete_expired, session.py lines 812 to 817:
unconditionally raises NotImplementedError. -/
def MemcachedSession.delete_expired (connection : McState) :
    Except PyExc Unit :=
  .error .notImplementedError

/-- BaseSession.refresh, session.py lines 260 to 278, instantiated with
the MySQL backend delete and save: refreshes the expiry (optionally
from a newly supplied duration); when new_session_id is set it deletes
the old id from the backend, assigns the supplied newly generated id
and recomputes the next regeneration instant; finally it forces the
dirty flag and saves. -/
def MySQLSession.refresh (now : PyDateTime) (newId : PyStr)
    (duration : Option PyDuration) (new_session_id : Bool)
    (s : SessionState) (db : List StoredRow) :
    SessionState × List StoredRow :=
  let s :=
    match duration with
    | some d =>
      let s := { s with duration := d }
      let de := BaseSession._expires_at now s.duration
      { s with duration := de.1, expires := de.2 }
    | none =>
      let de := BaseSession._expires_at now s.duration
      { s with duration := de.1, expires := de.2 }
  let sdb :=
    if new_session_id then
      let db := MySQLSession.delete s db
      let s := { s with session_id := newId }
      let rn := BaseSession._next_regeneration_at now s.regeneration_interval
      ({ s with regeneration_interval := rn.1, next_regeneration := rn.2 }, db)
    else (s, db)
  MySQLSession.save { sdb.1 with dirty := true } sdb.2

/-- The handler keyword parameters forwarded to the session class
(handler.py lines 115 to 124). -/
structure HandlerKw where
  security_model : List PyStr
  duration : PyDuration
  regeneration_interval : PyDuration
  ip_address : PyStr
  user_agent : PyStr

/-- Handler.create_session, dustdevil/handler.py lines 101 to 136 (the
same logic as handler.py lines 88 to 127), instantiated with the MySQL
backend, the only storage class whose load method accepts the forwarded
keyword arguments.  freshId is the random id the constructor of a new
session would draw and rotId the one a refresh would draw. -/
def Handler.create_session (now : PyDateTime) (freshId rotId : PyStr)
    (kw : HandlerKw) (session_id : PyStr) (db : List StoredRow) :
    SessionState × List StoredRow :=
  let old_session := MySQLSession.load session_id (connOfDb db)
  let expiredOrMissing :=
    match old_session with
    | none => true
    | some o => BaseSession._is_expired now o.expires
  let newdb :=
    if expiredOrMissing then
      let s := BaseSession.new freshId now kw.duration kw.regeneration_interval
        kw.ip_address kw.user_agent kw.security_model
      let r := MySQLSession.save s db
      (some r.1, r.2)
    else (none, db)
  match old_session with
  | some o =>
    if BaseSession._should_regenerate now o.next_regeneration then
      MySQLSession.refresh now rotId none true o newdb.2
    else (o, newdb.2)
  | none =>
    match newdb.1 with
    | some s => (s, newdb.2)
    | none => (default, newdb.2)

/-- A stored row whose expiry equals the sweep instant. -/
def boundaryRow : StoredRow :=
  { session_id := [120], data := [], expires := 7,
    ip_address := [], user_agent := [] }

/-- The corresponding MongoDB document at the boundary. -/
def boundaryDoc : MongoDoc :=
  { session_id := [120], data := [], expires := 7, user_agent := [] }

/-- A clean session record, dirty flag cleared. -/
def cleanSession : SessionState := { exSession with dirty := false }

/-- A dirty record whose expiry is 90000 seconds (one day and one hour)
after time zero. -/
def mcSession : SessionState := { exSession with expires := 90000000000 }

/-- The stored, already expired session used for the C1 evaluation: at
now = 10 seconds (in microseconds) its expiry of 5 seconds lies in the
past while its next regeneration instant lies in the future. -/
def expiredStored : SessionState :=
  { session_id := [115, 105, 100]
    data := [([107], [118])]
    duration := .td 900000000
    expires := 5000000
    dirty := false
    ip_address := [105]
    user_agent := [117]
    security_model := []
    regeneration_interval := .td 3600000000
    next_regeneration := 1000000000000 }

/-- The id the stored record carries. -/
def c1OldId : PyStr := [115, 105, 100]

/-- The fresh id a new session would draw. -/
def c1FreshId : PyStr := [110, 49]

/-- The id a rotation would draw. -/
def c1RotId : PyStr := [114, 49]

/-- The handler keyword parameters for the C1 evaluation. -/
def c1Kw : HandlerKw :=
  { security_model := []
    duration := .pyint 900
    regeneration_interval := .pyint 240
    ip_address := [105]
    user_agent := [117] }

/-- A Redis connection whose existence check raises a transport
error. -/
def brokenRedis : RedisConn :=
  { existsResult := fun _ => .error .transportError
    getResult := fun _ => .error .transportError }

/-- A row with an undecodable payload. -/
def corruptRow : StoredRow :=
  { session_id := [120], data := [0], expires := 0,
    ip_address := [], user_agent := [] }

/-- The row the file backend stores for the witness record. -/
def goodRow : StoredRow := rowOf exSession

/-- A Redis connection answering with a stored value for the witness
record. -/
def okRedis : RedisConn :=
  { existsResult := fun _ => .ok 1
    getResult := fun _ => .ok (BaseSession.serialize exSession ++ [58, 53]) }

/-- A Redis connection with no entry for the key. -/
def missingRedis : RedisConn :=
  { existsResult := fun _ => .ok 0
    getResult := fun _ => .error .transportError }

/-! ### Verified properties -/

theorem natDigitsAux_spec (fuel : Nat) :
    ∀ n, n ≤ fuel → natFromDigits (natDigitsAux fuel n) = n := by
  induction fuel with
  | zero =>
    intro n hn
    interval_cases n
    simp [natDigitsAux, natFromDigits]
  | succ fuel ih =>
    intro n hn
    match n with
    | 0 => simp [natDigitsAux, natFromDigits]
    | m + 1 =>
      have hdiv : (m + 1) / 255 ≤ fuel := by
        have := Nat.div_lt_self (Nat.succ_pos m) (by norm_num : 1 < 255)
        omega
      simp only [natDigitsAux, natFromDigits, ih _ hdiv]
      omega

theorem natFromDigits_natDigits (n : Nat) :
    natFromDigits (natDigits n) = n :=
  natDigitsAux_spec n n le_rfl

theorem natDigitsAux_lt (fuel : Nat) :
    ∀ n, ∀ d ∈ natDigitsAux fuel n, d < 255 := by
  induction fuel with
  | zero =>
    intro n d hd
    match n with
    | 0 => simp [natDigitsAux] at hd
    | m + 1 => simp [natDigitsAux] at hd
  | succ fuel ih =>
    intro n d hd
    match n with
    | 0 => simp [natDigitsAux] at hd
    | m + 1 =>
      simp only [natDigitsAux, List.mem_cons] at hd
      rcases hd with h | h
      · omega
      · exact ih _ _ h

theorem natDigits_lt (n : Nat) : ∀ d ∈ natDigits n, d < 255 :=
  natDigitsAux_lt n n

theorem parseNatAux_append (ds rest : List Nat)
    (h : ∀ d ∈ ds, d < 255) :
    parseNatAux (ds ++ 255 :: rest) = some (ds, rest) := by
  induction ds with
  | nil => simp [parseNatAux]
  | cons d ds ih =>
    have hd : d < 255 := h d (List.mem_cons_self d ds)
    have hds : ∀ x ∈ ds, x < 255 := fun x hx => h x (List.mem_cons_of_mem d hx)
    rw [List.cons_append, parseNatAux]
    rw [if_neg (by omega : ¬ d = 255), ih hds]

theorem parseNat_encode (n : Nat) (rest : List Nat) :
    parseNat (natEncode n ++ rest) = some (n, rest) := by
  have h : natEncode n ++ rest = natDigits n ++ 255 :: rest := by
    simp [natEncode]
  rw [h, parseNat, parseNatAux_append _ _ (natDigits_lt n)]
  simp [natFromDigits_natDigits]

theorem parseInt_encode (n : Int) (rest : List Nat) :
    parseInt (intEncode n ++ rest) = some (n, rest) := by
  by_cases hn : n < 0
  · simp only [intEncode, if_pos hn, List.cons_append, parseInt,
      parseNat_encode]
    congr 1
    congr 1
    omega
  · simp only [intEncode, if_neg hn, List.cons_append, parseInt,
      parseNat_encode]
    congr 1
    congr 1
    omega

theorem parseStr_encode (s : PyStr) (rest : List Nat) :
    parseStr (strEncode s ++ rest) = some (s, rest) := by
  have h : strEncode s ++ rest = natEncode s.length ++ (s ++ rest) := by
    simp [strEncode]
  rw [h]
  simp [parseStr, parseNat_encode, List.take_left, List.drop_left]

theorem parseDuration_encode (d : PyDuration) (rest : List Nat) :
    parseDuration (durationEncode d ++ rest) = some (d, rest) := by
  cases d with
  | td us => simp [durationEncode, parseDuration, parseInt_encode]
  | pyint n => simp [durationEncode, parseDuration, parseInt_encode]
  | pystr ds => simp [durationEncode, parseDuration, parseStr_encode]
  | pynone => simp [durationEncode, parseDuration]

theorem parseDataEntries_encode (es : List (PyStr × PyStr)) (rest : List Nat) :
    parseDataEntries es.length (dataEntriesEncode es ++ rest) =
      some (es, rest) := by
  induction es with
  | nil => simp [dataEntriesEncode, parseDataEntries]
  | cons e es ih =>
    simp only [dataEntriesEncode, List.length_cons, parseDataEntries,
      List.append_assoc, parseStr_encode, ih]

theorem parseData_encode (es : List (PyStr × PyStr)) (rest : List Nat) :
    parseData (dataEncode es ++ rest) = some (es, rest) := by
  simp only [dataEncode, List.cons_append, parseData, List.append_assoc,
    parseNat_encode, parseDataEntries_encode]

theorem parseStrItems_encode (ss : List PyStr) (rest : List Nat) :
    parseStrItems ss.length (strItemsEncode ss ++ rest) = some (ss, rest) := by
  induction ss with
  | nil => simp [strItemsEncode, parseStrItems]
  | cons s ss ih =>
    simp only [strItemsEncode, List.length_cons, parseStrItems,
      List.append_assoc, parseStr_encode, ih]

theorem parseStrList_encode (ss : List PyStr) (rest : List Nat) :
    parseStrList (strListEncode ss ++ rest) = some (ss, rest) := by
  simp only [strListEncode, List.cons_append, parseStrList, List.append_assoc,
    parseNat_encode, parseStrItems_encode]

theorem parseKey_encode (key : PyStr) (rest : List Nat) :
    parseKey key (strEncode key ++ rest) = some rest := by
  simp [parseKey, parseStr_encode]

theorem parseTagStr_encode (s : PyStr) (rest : List Nat) :
    parseTagStr (0 :: (strEncode s ++ rest)) = some (s, rest) := by
  simp [parseTagStr, parseStr_encode]

theorem parseTagDateTime_encode (t : PyDateTime) (rest : List Nat) :
    parseTagDateTime (3 :: (intEncode t ++ rest)) = some (t, rest) := by
  simp [parseTagDateTime, parseInt_encode]

theorem pickleLoads_pickleDumps (d : SessionDump) :
    pickleLoads (pickleDumps d) = some d := by
  simp only [pickleDumps, List.cons_append, List.append_assoc]
  simp only [pickleLoads, parseNat_encode, parseKey_encode, parseTagStr_encode,
    parseData_encode, parseDuration_encode, parseTagDateTime_encode,
    parseStrList_encode]
  rw [show (3 : Nat) :: intEncode d.next_regeneration =
      3 :: (intEncode d.next_regeneration ++ []) by simp]
  rw [parseTagDateTime_encode]

theorem isB64_b64char (x : Nat) : isB64 (b64char x) = true := by
  unfold b64char isB64
  split_ifs <;> simp <;> omega

theorem b64val_b64char (x : Nat) (h : x < 64) : b64val (b64char x) = x := by
  unfold b64char b64val
  split_ifs <;> omega

theorem bytesToSextets_lt :
    ∀ bs : List Nat, (∀ b ∈ bs, b < 256) → ∀ x ∈ bytesToSextets bs, x < 64
  | [], _ => by simp [bytesToSextets]
  | [b1], h => by
    have h1 : b1 < 256 := h b1 (by simp)
    simp only [bytesToSextets, List.mem_cons, List.not_mem_nil, or_false]
    rintro x (rfl | rfl) <;> omega
  | [b1, b2], h => by
    have h1 : b1 < 256 := h b1 (by simp)
    have h2 : b2 < 256 := h b2 (by simp)
    simp only [bytesToSextets, List.mem_cons, List.not_mem_nil, or_false]
    rintro x (rfl | rfl | rfl) <;> omega
  | b1 :: b2 :: b3 :: rest, h => by
    have h1 : b1 < 256 := h b1 (by simp)
    have h2 : b2 < 256 := h b2 (by simp)
    have h3 : b3 < 256 := h b3 (by simp)
    have ih := bytesToSextets_lt rest (fun x hx => h x (by simp [hx]))
    simp only [bytesToSextets, List.mem_cons]
    rintro x (rfl | rfl | rfl | rfl | hx)
    · omega
    · omega
    · omega
    · omega
    · exact ih x hx

theorem sextetsToBytes_bytesToSextets :
    ∀ bs : List Nat, (∀ b ∈ bs, b < 256) →
      sextetsToBytes (bytesToSextets bs) = bs
  | [], _ => rfl
  | [b1], _ => by
    simp only [bytesToSextets, sextetsToBytes, List.cons.injEq, and_true]
    omega
  | [b1, b2], h => by
    have h2 : b2 < 256 := h b2 (by simp)
    simp only [bytesToSextets, sextetsToBytes, List.cons.injEq, and_true]
    constructor <;> omega
  | b1 :: b2 :: b3 :: rest, h => by
    have h2 : b2 < 256 := h b2 (by simp)
    have h3 : b3 < 256 := h b3 (by simp)
    have ih := sextetsToBytes_bytesToSextets rest (fun x hx => h x (by simp [hx]))
    simp only [bytesToSextets, sextetsToBytes, ih, List.cons.injEq, and_true]
    refine ⟨by omega, by omega, by omega⟩

theorem bytesToSextets_append :
    ∀ a b : List Nat, a.length % 3 = 0 →
      bytesToSextets (a ++ b) = bytesToSextets a ++ bytesToSextets b
  | [], b, _ => by simp [bytesToSextets]
  | [x], b, h => by simp at h
  | [x, y], b, h => by simp at h
  | x :: y :: z :: rest, b, h => by
    have hr : rest.length % 3 = 0 := by
      simp only [List.length_cons] at h
      omega
    have ih := bytesToSextets_append rest b hr
    simp only [List.cons_append, bytesToSextets, List.append_eq, ih]

theorem filter_b2a (c : List Nat) :
    (b2a_base64 c).filter isB64 = (bytesToSextets c).map b64char := by
  unfold b2a_base64
  rw [List.filter_append, List.filter_append]
  have h1 : ((bytesToSextets c).map b64char).filter isB64 =
      (bytesToSextets c).map b64char := by
    apply List.filter_eq_self.mpr
    intro a ha
    rcases List.mem_map.mp ha with ⟨x, _, rfl⟩
    exact isB64_b64char x
  have h2 : (padChars c.length).filter isB64 = [] := by
    unfold padChars
    split_ifs <;> decide
  have h3 : [10].filter isB64 = [] := by decide
  rw [h1, h2, h3]
  simp

theorem filter_encodestringAux :
    ∀ fuel (s : List Nat), s.length ≤ fuel →
      (encodestringAux fuel s).filter isB64 = (bytesToSextets s).map b64char
  | _, [], _ => by simp [encodestringAux, bytesToSextets]
  | 0, b :: bs, h => by simp at h
  | fuel + 1, b :: bs, h => by
    have hlen : (List.drop 57 (b :: bs)).length ≤ fuel := by
      rw [List.length_drop]
      simp only [List.length_cons] at h ⊢
      omega
    have ih := filter_encodestringAux fuel _ hlen
    simp only [encodestringAux]
    rw [List.filter_append, filter_b2a, ih]
    by_cases hle : (b :: bs).length ≤ 57
    · rw [List.take_of_length_le hle, List.drop_of_length_le hle]
      simp [bytesToSextets]
    · have h57 : (List.take 57 (b :: bs)).length % 3 = 0 := by
        rw [List.length_take]
        omega
      rw [← List.map_append, ← bytesToSextets_append _ _ h57,
        List.take_append_drop]

theorem decodestring_encodestring (s : List Nat) (h : ∀ b ∈ s, b < 256) :
    decodestring (encodestring s) = s := by
  unfold decodestring encodestring
  rw [filter_encodestringAux s.length s le_rfl, List.map_map]
  have hmap : (bytesToSextets s).map (b64val ∘ b64char) = bytesToSextets s := by
    have := List.map_congr_left
      (fun x hx => b64val_b64char x (bytesToSextets_lt s h x hx))
    calc (bytesToSextets s).map (b64val ∘ b64char)
        = (bytesToSextets s).map id := this
      _ = bytesToSextets s := List.map_id _
  rw [hmap]
  exact sextetsToBytes_bytesToSextets s h

theorem natEncode_lt (n : Nat) : ∀ b ∈ natEncode n, b < 256 := by
  intro b hb
  unfold natEncode at hb
  rcases List.mem_append.mp hb with h | h
  · have := natDigits_lt n b h
    omega
  · simp at h
    omega

theorem intEncode_lt (n : Int) : ∀ b ∈ intEncode n, b < 256 := by
  intro b hb
  unfold intEncode at hb
  split_ifs at hb <;> rcases List.mem_cons.mp hb with rfl | h
  · omega
  · exact natEncode_lt _ b h
  · omega
  · exact natEncode_lt _ b h

theorem strEncode_lt (s : PyStr) (h : StrOk s) : ∀ b ∈ strEncode s, b < 256 := by
  intro b hb
  rcases List.mem_append.mp hb with h1 | h1
  · exact natEncode_lt _ b h1
  · exact h b h1

theorem durationEncode_lt (d : PyDuration) (h : d.Ok) :
    ∀ b ∈ durationEncode d, b < 256 := by
  intro b hb
  cases d with
  | td us =>
    rcases List.mem_cons.mp hb with rfl | h1
    · omega
    · exact intEncode_lt _ b h1
  | pyint n =>
    rcases List.mem_cons.mp hb with rfl | h1
    · omega
    · exact intEncode_lt _ b h1
  | pystr ds =>
    rcases List.mem_cons.mp hb with rfl | h1
    · omega
    · exact strEncode_lt _ h b h1
  | pynone =>
    simp [durationEncode] at hb
    omega

theorem dataEntriesEncode_lt (es : List (PyStr × PyStr))
    (h : ∀ e ∈ es, StrOk e.1 ∧ StrOk e.2) :
    ∀ b ∈ dataEntriesEncode es, b < 256 := by
  induction es with
  | nil => simp [dataEntriesEncode]
  | cons e es ih =>
    intro b hb
    unfold dataEntriesEncode at hb
    have he := h e (by simp)
    rcases List.mem_append.mp hb with h1 | h1
    · rcases List.mem_append.mp h1 with h2 | h2
      · exact strEncode_lt _ he.1 b h2
      · exact strEncode_lt _ he.2 b h2
    · exact ih (fun x hx => h x (by simp [hx])) b h1

theorem dataEncode_lt (es : List (PyStr × PyStr))
    (h : ∀ e ∈ es, StrOk e.1 ∧ StrOk e.2) :
    ∀ b ∈ dataEncode es, b < 256 := by
  intro b hb
  unfold dataEncode at hb
  rcases List.mem_cons.mp hb with rfl | h1
  · omega
  · rcases List.mem_append.mp h1 with h2 | h2
    · exact natEncode_lt _ b h2
    · exact dataEntriesEncode_lt es h b h2

theorem strItemsEncode_lt (ss : List PyStr) (h : ∀ s ∈ ss, StrOk s) :
    ∀ b ∈ strItemsEncode ss, b < 256 := by
  induction ss with
  | nil => simp [strItemsEncode]
  | cons s ss ih =>
    intro b hb
    unfold strItemsEncode at hb
    rcases List.mem_append.mp hb with h1 | h1
    · exact strEncode_lt _ (h s (by simp)) b h1
    · exact ih (fun x hx => h x (by simp [hx])) b h1

theorem strListEncode_lt (ss : List PyStr) (h : ∀ s ∈ ss, StrOk s) :
    ∀ b ∈ strListEncode ss, b < 256 := by
  intro b hb
  unfold strListEncode at hb
  rcases List.mem_cons.mp hb with rfl | h1
  · omega
  · rcases List.mem_append.mp h1 with h2 | h2
    · exact natEncode_lt _ b h2
    · exact strItemsEncode_lt ss h b h2

theorem pickleDumps_lt (d : SessionDump) (h : DumpOk d) :
    ∀ b ∈ pickleDumps d, b < 256 := by
  obtain ⟨hsid, hdata, hdur, hip, hua, hsec, hri⟩ := h
  simp only [pickleDumps, List.cons_append, List.append_assoc,
    List.forall_mem_append, List.forall_mem_cons]
  repeat' apply And.intro
  all_goals
    first
    | omega
    | exact natEncode_lt _
    | exact intEncode_lt _
    | exact strEncode_lt _ hsid
    | exact strEncode_lt _ hip
    | exact strEncode_lt _ hua
    | exact strEncode_lt _ (by decide)
    | exact dataEncode_lt _ hdata
    | exact durationEncode_lt _ hdur
    | exact durationEncode_lt _ hri
    | exact strListEncode_lt _ hsec

theorem deserialize_serialize (s : SessionState) (h : SessionOk s) :
    BaseSession.deserialize (BaseSession.serialize s) = some (dumpOf s) := by
  unfold BaseSession.deserialize BaseSession.serialize
  rw [decodestring_encodestring _ (pickleDumps_lt _ h), pickleLoads_pickleDumps]

/-- C4: for every constructed session record (with well-formed byte
strings), deserialize of serialize returns a field mapping equal to the
captured state on all nine fields: session_id, data, duration, expires,
ip_address, user_agent, security_model, regeneration_interval and
next_regeneration. -/
theorem C4_serialize_deserialize_roundtrip (s : SessionState)
    (h : SessionOk s) :
    BaseSession.deserialize (BaseSession.serialize s) =
      some { session_id := s.session_id
             data := s.data
             duration := s.duration
             expires := s.expires
             ip_address := s.ip_address
             user_agent := s.user_agent
             security_model := s.security_model
             regeneration_interval := s.regeneration_interval
             next_regeneration := s.next_regeneration } :=
  deserialize_serialize s h

/-- Witness for C4 at a concrete record. -/
theorem C4_serialize_deserialize_roundtrip_witness :
    SessionOk exSession ∧
      BaseSession.deserialize (BaseSession.serialize exSession) =
        some { session_id := exSession.session_id
               data := exSession.data
               duration := exSession.duration
               expires := exSession.expires
               ip_address := exSession.ip_address
               user_agent := exSession.user_agent
               security_model := exSession.security_model
               regeneration_interval := exSession.regeneration_interval
               next_regeneration := exSession.next_regeneration } :=
  ⟨by decide, C4_serialize_deserialize_roundtrip exSession (by decide)⟩

/-- C5: a duration given as a timedelta, as integer seconds or as a
string of decimal digits normalises to the same effective length in
both conversion helpers; absent or unrecognised input falls back to the
documented defaults (900 seconds for expiration, 240 for rotation); and
the converted value is memoized on the record, so a second call sees a
timedelta and reuses it unchanged. -/
theorem C5_duration_normalization (now now2 : PyDateTime) (n : Int)
    (ds : List Nat) (hds : pyIntOfDigits ds = n) :
    ((BaseSession._expires_at now (.pyint n)).2 = now + n * usPerSecond ∧
      (BaseSession._expires_at now (.td (n * usPerSecond))).2 =
        now + n * usPerSecond ∧
      (BaseSession._expires_at now (.pystr ds)).2 = now + n * usPerSecond) ∧
    ((BaseSession._next_regeneration_at now (.pyint n)).2 =
        now + n * usPerSecond ∧
      (BaseSession._next_regeneration_at now (.td (n * usPerSecond))).2 =
        now + n * usPerSecond ∧
      (BaseSession._next_regeneration_at now (.pystr ds)).2 =
        now + n * usPerSecond) ∧
    ((BaseSession._expires_at now .pynone).2 = now + 900 * usPerSecond ∧
      (BaseSession._next_regeneration_at now .pynone).2 =
        now + 240 * usPerSecond) ∧
    (∀ d : PyDuration,
      BaseSession._expires_at now2 (BaseSession._expires_at now d).1 =
        ((BaseSession._expires_at now d).1,
          now2 + (BaseSession._expires_at now d).1.micros) ∧
      BaseSession._next_regeneration_at now2
          (BaseSession._next_regeneration_at now d).1 =
        ((BaseSession._next_regeneration_at now d).1,
          now2 + (BaseSession._next_regeneration_at now d).1.micros)) := by
  refine ⟨⟨?_, ?_, ?_⟩, ⟨?_, ?_, ?_⟩, ⟨?_, ?_⟩, ?_⟩
  · simp [BaseSession._expires_at, PyDuration.micros]
  · simp [BaseSession._expires_at, PyDuration.micros]
  · simp [BaseSession._expires_at, PyDuration.micros, hds]
  · simp [BaseSession._next_regeneration_at, PyDuration.micros]
  · simp [BaseSession._next_regeneration_at, PyDuration.micros]
  · simp [BaseSession._next_regeneration_at, PyDuration.micros, hds]
  · simp [BaseSession._expires_at, PyDuration.micros]
  · simp [BaseSession._next_regeneration_at, PyDuration.micros]
  · intro d
    cases d <;>
      simp [BaseSession._expires_at, BaseSession._next_regeneration_at,
        PyDuration.micros]

/-- Witness for C5 at concrete inputs. -/
theorem C5_duration_normalization_witness :
    pyIntOfDigits [57, 48, 48] = 900 ∧
      ((BaseSession._expires_at 0 (.pyint 900)).2 = 0 + 900 * usPerSecond ∧
        (BaseSession._expires_at 0 (.td (900 * usPerSecond))).2 =
          0 + 900 * usPerSecond ∧
        (BaseSession._expires_at 0 (.pystr [57, 48, 48])).2 =
          0 + 900 * usPerSecond) ∧
      ((BaseSession._next_regeneration_at 0 (.pyint 900)).2 =
          0 + 900 * usPerSecond ∧
        (BaseSession._next_regeneration_at 0 (.td (900 * usPerSecond))).2 =
          0 + 900 * usPerSecond ∧
        (BaseSession._next_regeneration_at 0 (.pystr [57, 48, 48])).2 =
          0 + 900 * usPerSecond) ∧
      ((BaseSession._expires_at 0 .pynone).2 = 0 + 900 * usPerSecond ∧
        (BaseSession._next_regeneration_at 0 .pynone).2 =
          0 + 240 * usPerSecond) ∧
      (∀ d : PyDuration,
        BaseSession._expires_at 7 (BaseSession._expires_at 0 d).1 =
          ((BaseSession._expires_at 0 d).1,
            7 + (BaseSession._expires_at 0 d).1.micros) ∧
        BaseSession._next_regeneration_at 7
            (BaseSession._next_regeneration_at 0 d).1 =
          ((BaseSession._next_regeneration_at 0 d).1,
            7 + (BaseSession._next_regeneration_at 0 d).1.micros)) :=
  ⟨by decide, C5_duration_normalization 0 7 900 [57, 48, 48] (by decide)⟩

/-- C6: a session is expired exactly when now is strictly greater than
the expiry instant; at the exact expiry instant it is not expired. -/
theorem C6_is_expired_strict (t e : PyDateTime) :
    (BaseSession._is_expired t e = true ↔ e < t) ∧
      BaseSession._is_expired t t = false := by
  constructor
  · simp [BaseSession._is_expired]
  · simp [BaseSession._is_expired]

theorem find?_all_matches_eq {α : Type} {p : α → Bool} {a : α} :
    ∀ l : List α, (∀ x ∈ l, p x = true → x = a) → p a = true →
      l.any p = true → l.find? p = some a
  | [], _, _, hx => by simp at hx
  | x :: xs, hall, hpa, hx => by
    by_cases hpx : p x = true
    · rw [List.find?_cons_of_pos _ hpx, hall x (by simp) hpx]
    · rw [List.find?_cons_of_neg _ hpx]
      refine find?_all_matches_eq xs (fun y hy => hall y (by simp [hy])) hpa ?_
      simp only [List.any_cons, hpx, Bool.false_or] at hx
      exact hx

theorem find?_append_right {α : Type} {p : α → Bool} :
    ∀ l1 l2 : List α, l1.find? p = none → (l1 ++ l2).find? p = l2.find? p
  | [], _, _ => rfl
  | x :: xs, l2, h => by
    have hx : ¬ p x = true := by
      intro hpx
      rw [List.find?_cons_of_pos _ hpx] at h
      cases h
    rw [List.cons_append, List.find?_cons_of_neg _ hx]
    refine find?_append_right xs l2 ?_
    rwa [List.find?_cons_of_neg _ hx] at h

theorem rowOf_dirty (s : SessionState) (b : Bool) :
    rowOf { s with dirty := b } = rowOf s := by
  simp [rowOf, BaseSession.serialize, dumpOf]

theorem mysql_upsert_find_self (s : SessionState) (db : List StoredRow)
    (h : s.dirty = true) (sid : PyStr) (hsid : s.session_id = sid) :
    (MySQLSession.save s db).2.find?
      (fun row => decide (row.session_id = sid)) = some (rowOf s) := by
  subst hsid
  simp only [MySQLSession.save, h, Bool.true_eq_false, if_false]
  by_cases hf : db.any (fun r => decide (r.session_id = s.session_id)) = true
  · simp only [hf, if_true]
    refine find?_all_matches_eq _ ?_ (by simp [rowOf]) ?_
    · intro x hx hpx
      rcases List.mem_map.mp hx with ⟨y, _, rfl⟩
      by_cases hy : y.session_id = s.session_id
      · simp [hy]
      · rw [if_neg hy] at hpx ⊢
        exact absurd (of_decide_eq_true hpx) hy
    · rcases List.any_eq_true.mp hf with ⟨y, hy, hpy⟩
      refine List.any_eq_true.mpr ⟨rowOf s, List.mem_map.mpr ⟨y, hy, ?_⟩, ?_⟩
      · simp [of_decide_eq_true hpy]
      · simp [rowOf]
  · rw [Bool.not_eq_true] at hf
    rw [hf, if_neg Bool.false_ne_true]
    rw [find?_append_right]
    · simp [rowOf]
    · refine List.find?_eq_none.mpr ?_
      intro x hx
      rcases List.mem_map.mp hx with ⟨y, hy, rfl⟩
      by_cases hysid : y.session_id = s.session_id
      · have : db.any (fun r => decide (r.session_id = s.session_id)) = true :=
          List.any_eq_true.mpr ⟨y, hy, by simp [hysid]⟩
        rw [hf] at this
        cases this
      · simp [hysid]

theorem mysql_upsert_find_absent (s : SessionState) (db : List StoredRow)
    (h : s.dirty = true) (sid : PyStr) (hne : ¬ s.session_id = sid)
    (hnone : ∀ row ∈ db, ¬ row.session_id = sid) :
    (MySQLSession.save s db).2.find?
      (fun row => decide (row.session_id = sid)) = none := by
  simp only [MySQLSession.save, h, Bool.true_eq_false, if_false]
  have hmap : ∀ x ∈ db.map
      (fun r => if r.session_id = s.session_id then rowOf s else r),
      ¬ (decide (x.session_id = sid)) = true := by
    intro x hx
    rcases List.mem_map.mp hx with ⟨y, hy, rfl⟩
    by_cases hysid : y.session_id = s.session_id
    · simp [hysid, rowOf, hne]
    · simp [hysid, hnone y hy]
  by_cases hf : db.any (fun r => decide (r.session_id = s.session_id)) = true
  · simp only [hf, if_true]
    exact List.find?_eq_none.mpr hmap
  · rw [Bool.not_eq_true] at hf
    rw [hf, if_neg Bool.false_ne_true]
    rw [find?_append_right _ _ (List.find?_eq_none.mpr hmap)]
    simp [rowOf, hne]

/-- C7: rotation (refresh with new_session_id set) deletes the old id
from the backend, assigns the newly generated id, recomputes the next
regeneration instant, persists the record under the new id (clearing
the dirty flag it forced), and leaves the data mapping unchanged. -/
theorem C7_refresh_rotates_and_preserves_data (now : PyDateTime)
    (newId : PyStr) (s : SessionState) (db : List StoredRow)
    (hid : ¬ newId = s.session_id) :
    (MySQLSession.refresh now newId none true s db).1.session_id = newId ∧
    (MySQLSession.refresh now newId none true s db).1.data = s.data ∧
    (MySQLSession.refresh now newId none true s db).1.next_regeneration =
      (BaseSession._next_regeneration_at now s.regeneration_interval).2 ∧
    (MySQLSession.refresh now newId none true s db).1.dirty = false ∧
    (MySQLSession.refresh now newId none true s db).2.find?
      (fun row => decide (row.session_id = s.session_id)) = none ∧
    (MySQLSession.refresh now newId none true s db).2.find?
      (fun row => decide (row.session_id = newId)) =
      some (rowOf (MySQLSession.refresh now newId none true s db).1) := by
  have hsave1 : ∀ (t : SessionState) (d : List StoredRow), t.dirty = true →
      (MySQLSession.save t d).1 = { t with dirty := false } := by
    intro t d ht
    simp [MySQLSession.save, ht]
  have hdel : ∀ row ∈ MySQLSession.delete
      { s with
        duration := (BaseSession._expires_at now s.duration).1
        expires := (BaseSession._expires_at now s.duration).2 } db,
      ¬ row.session_id = s.session_id := by
    intro row hrow
    simp only [MySQLSession.delete] at hrow
    exact of_decide_eq_true (List.mem_filter.mp hrow).2
  simp only [MySQLSession.refresh, if_true]
  refine ⟨?_, ?_, ?_, ?_, ?_, ?_⟩
  · rw [hsave1 _ _ rfl]
  · rw [hsave1 _ _ rfl]
  · rw [hsave1 _ _ rfl]
  · rw [hsave1 _ _ rfl]
  · exact mysql_upsert_find_absent _ _ rfl s.session_id hid hdel
  · rw [mysql_upsert_find_self _ _ rfl newId rfl, hsave1 _ _ rfl, rowOf_dirty]

/-- Witness for C7 at a concrete rotation. -/
theorem C7_refresh_rotates_and_preserves_data_witness :
    ¬ ([110] : PyStr) = exSession.session_id ∧
      ((MySQLSession.refresh 0 [110] none true exSession []).1.session_id =
        [110] ∧
      (MySQLSession.refresh 0 [110] none true exSession []).1.data =
        exSession.data ∧
      (MySQLSession.refresh 0 [110] none true exSession []).1.next_regeneration =
        (BaseSession._next_regeneration_at 0
          exSession.regeneration_interval).2 ∧
      (MySQLSession.refresh 0 [110] none true exSession []).1.dirty = false ∧
      (MySQLSession.refresh 0 [110] none true exSession []).2.find?
        (fun row => decide (row.session_id = exSession.session_id)) = none ∧
      (MySQLSession.refresh 0 [110] none true exSession []).2.find?
        (fun row => decide (row.session_id = [110])) =
        some (rowOf (MySQLSession.refresh 0 [110] none true exSession []).1)) :=
  ⟨by decide,
    C7_refresh_rotates_and_preserves_data 0 [110] exSession [] (by decide)⟩

theorem file_sweep_filter (now : Int) :
    ∀ rows : List StoredRow, FileSession.delete_expired now rows =
      rows.filter (fun r => decide (now < r.expires))
  | [] => rfl
  | row :: rest => by
    simp only [FileSession.delete_expired, List.filter_cons]
    by_cases h : now < row.expires
    · simp [h, file_sweep_filter now rest]
    · simp [h, file_sweep_filter now rest]

theorem dir_sweep_filter (now : Int) :
    ∀ files : List (PyStr × StoredRow), DirSession.delete_expired now files =
      files.filter (fun f => decide (now ≤ f.2.expires))
  | [] => rfl
  | f :: fs => by
    simp only [DirSession.delete_expired, List.filter_cons]
    by_cases h : f.2.expires < now
    · simp [h, dir_sweep_filter now fs, not_le.mpr h]
    · simp [h, dir_sweep_filter now fs, not_lt.mp h]

theorem mongo_sweep_filter (now : Int) :
    ∀ docs : List MongoDoc, MongoDBSession.delete_expired now docs =
      docs.filter (fun d => decide (now < d.expires))
  | [] => rfl
  | d :: ds => by
    simp only [MongoDBSession.delete_expired, List.filter_cons]
    by_cases h : d.expires ≤ now
    · simp [h, mongo_sweep_filter now ds, not_lt.mpr h]
    · simp [h, mongo_sweep_filter now ds, not_le.mp h]

/-- C2 counterexample: with now equal to the stored expiry, the claim
demands the entry be left untouched, but the file backend sweep removes
it, and so does the MongoDB sweep. -/
theorem C2_sweep_boundary_counterexample :
    ¬ FileSession.delete_expired 7 [boundaryRow] = [boundaryRow] ∧
      FileSession.delete_expired 7 [boundaryRow] = [] ∧
      MongoDBSession.delete_expired 7 [boundaryDoc] = [] := by decide

/-- C2 amended: the directory sweep removes exactly the entries whose
stored expiry is strictly below now and leaves the others in place; the
file and MongoDB sweeps instead remove every entry whose expiry is less
than or equal to now, keeping exactly those strictly in the future, so
an entry exactly at its expiry instant is removed by those two. -/
theorem C2_sweep_exact (now : Int) (rows : List StoredRow)
    (files : List (PyStr × StoredRow)) (docs : List MongoDoc) :
    FileSession.delete_expired now rows =
      rows.filter (fun r => decide (now < r.expires)) ∧
    DirSession.delete_expired now files =
      files.filter (fun f => decide (now ≤ f.2.expires)) ∧
    MongoDBSession.delete_expired now docs =
      docs.filter (fun d => decide (now < d.expires)) ∧
    (∀ r : StoredRow, r ∈ FileSession.delete_expired now rows ↔
      r ∈ rows ∧ now < r.expires) ∧
    (∀ f : PyStr × StoredRow, f ∈ DirSession.delete_expired now files ↔
      f ∈ files ∧ now ≤ f.2.expires) ∧
    (∀ d : MongoDoc, d ∈ MongoDBSession.delete_expired now docs ↔
      d ∈ docs ∧ now < d.expires) := by
  refine ⟨file_sweep_filter now rows, dir_sweep_filter now files,
    mongo_sweep_filter now docs, ?_, ?_, ?_⟩
  · intro r
    rw [file_sweep_filter now rows, List.mem_filter]
    simp
  · intro f
    rw [dir_sweep_filter now files, List.mem_filter]
    simp
  · intro d
    rw [mongo_sweep_filter now docs, List.mem_filter]
    simp

/-- C3: evaluated at a clean record, the file and MySQL saves are
no-ops as the contract requires, but the MongoDB save still writes its
document to the store; evaluated at a dirty record, the MongoDB save
leaves the dirty flag set instead of clearing it. -/
theorem C3_mongo_save_ignores_dirty_eval :
    FileSession.save cleanSession [] = (cleanSession, []) ∧
      MySQLSession.save cleanSession [] = (cleanSession, []) ∧
      cleanSession.dirty = false ∧
      (MongoDBSession.save cleanSession []).2 = [mongoDocOf cleanSession] ∧
      exSession.dirty = true ∧
      (MongoDBSession.save exSession []).1.dirty = true := by
  refine ⟨rfl, rfl, rfl, rfl, rfl, rfl⟩

/-- C9: saving this record at time zero passes a per-key timeout of
3600 seconds to the store, the seconds component of the
one-day-and-one-hour timedelta, instead of the 90000 whole seconds
until expiry that the claim and the class docstring describe. -/
theorem C9_memcached_timeout_eval :
    mcSession.dirty = true ∧
      (MemcachedSession.save 0 mcSession []).2.map (fun e => e.2.2) =
        [3600] ∧
      epochSeconds (mcSession.expires - 0) = 90000 := by decide

/-- C10: the Memcached sweep raises NotImplementedError on every
invocation rather than silently doing nothing. -/
theorem C10_memcached_sweep_not_implemented (connection : McState) :
    MemcachedSession.delete_expired connection =
      Except.error PyExc.notImplementedError := rfl

/-- C1: evaluating create_session on a stored record that exists but is
expired: the handler constructs and persists a fresh session, yet
returns the loaded expired record under its old id (still expired),
not the fresh record with the newly generated id. -/
theorem C1_create_session_returns_expired_record_eval :
    BaseSession._is_expired 10000000 expiredStored.expires = true ∧
      (Handler.create_session 10000000 c1FreshId c1RotId c1Kw c1OldId
        [rowOf expiredStored]).1.session_id = c1OldId ∧
      BaseSession._is_expired 10000000
        (Handler.create_session 10000000 c1FreshId c1RotId c1Kw c1OldId
          [rowOf expiredStored]).1.expires = true ∧
      ¬ c1OldId = c1FreshId := by decide

/-- C8 counterexample: a transport error raised by the Redis existence
check propagates out of load instead of yielding None. -/
theorem C8_redis_load_raises_counterexample :
    RedisSession.load [120] brokenRedis =
      Except.error PyExc.transportError := rfl

/-- C8 amended: the file and MySQL loads never raise, returning None on
a missing entry, an undecodable payload or any transport error and a
reconstructed record on success; the Redis load does the same for
failures of the get call and of decoding, but an exception raised by
the existence check, which runs outside the try block, propagates to
the caller. -/
theorem C8_load_uniform_notfound (sid : PyStr) (e : PyExc)
    (rows : List StoredRow) (row : StoredRow) (dump : SessionDump)
    (conn : MySQLConn) (rc : RedisConn) (v : List Nat) :
    (FileSession.load sid (Except.error e) = none) ∧
    ((∀ r ∈ rows, ¬ r.session_id = sid) →
      FileSession.load sid (Except.ok rows) = none) ∧
    (rows.find? (fun r => decide (r.session_id = sid)) = some row →
      BaseSession.deserialize row.data = none →
      FileSession.load sid (Except.ok rows) = none) ∧
    (rows.find? (fun r => decide (r.session_id = sid)) = some row →
      BaseSession.deserialize row.data = some dump →
      FileSession.load sid (Except.ok rows) = some (sessionOfDump dump)) ∧
    (conn.getResult sid = Except.error e →
      MySQLSession.load sid conn = none) ∧
    (conn.getResult sid = Except.ok none →
      MySQLSession.load sid conn = none) ∧
    (conn.getResult sid = Except.ok (some row) →
      BaseSession.deserialize row.data = none →
      MySQLSession.load sid conn = none) ∧
    (conn.getResult sid = Except.ok (some row) →
      BaseSession.deserialize row.data = some dump →
      MySQLSession.load sid conn = some (sessionOfDump dump)) ∧
    (rc.existsResult sid = Except.ok 0 →
      RedisSession.load sid rc = Except.ok none) ∧
    (rc.existsResult sid = Except.ok 1 →
      rc.getResult sid = Except.error e →
      RedisSession.load sid rc = Except.ok none) ∧
    (rc.existsResult sid = Except.ok 1 → rc.getResult sid = Except.ok v →
      BaseSession.deserialize (v.takeWhile (fun b => decide (¬ b = 58))) =
        none →
      RedisSession.load sid rc = Except.ok none) ∧
    (rc.existsResult sid = Except.ok 1 → rc.getResult sid = Except.ok v →
      BaseSession.deserialize (v.takeWhile (fun b => decide (¬ b = 58))) =
        some dump →
      RedisSession.load sid rc = Except.ok (some (sessionOfDump dump))) ∧
    (rc.existsResult sid = Except.error e →
      RedisSession.load sid rc = Except.error e) := by
  refine ⟨rfl, ?_, ?_, ?_, ?_, ?_, ?_, ?_, ?_, ?_, ?_, ?_, ?_⟩
  · intro h
    have hfind : rows.find? (fun r => decide (r.session_id = sid)) = none :=
      List.find?_eq_none.mpr (fun r hr => by simpa using h r hr)
    simp [FileSession.load, FileSession.loadCore, hfind]
  · intro h1 h2
    simp [FileSession.load, FileSession.loadCore, h1, h2]
  · intro h1 h2
    simp [FileSession.load, FileSession.loadCore, h1, h2]
  · intro h1
    simp [MySQLSession.load, MySQLSession.loadCore, h1]
  · intro h1
    simp [MySQLSession.load, MySQLSession.loadCore, h1]
  · intro h1 h2
    simp [MySQLSession.load, MySQLSession.loadCore, h1, h2]
  · intro h1 h2
    simp [MySQLSession.load, MySQLSession.loadCore, h1, h2]
  · intro h1
    simp [RedisSession.load, h1]
  · intro h1 h2
    simp [RedisSession.load, h1, h2]
  · intro h1 h2 h3
    simp only [decide_not] at h3
    simp [RedisSession.load, h1, h2, h3]
  · intro h1 h2 h3
    simp only [decide_not] at h3
    simp [RedisSession.load, h1, h2, h3]
  · intro h1
    simp [RedisSession.load, h1]

/-- Witness for C8 at concrete stores and connections. -/
theorem C8_load_uniform_notfound_witness :
    FileSession.load [120] (Except.error PyExc.ioError) = none ∧
      FileSession.load [120] (Except.ok ([] : List StoredRow)) = none ∧
      FileSession.load [120] (Except.ok [corruptRow]) = none ∧
      FileSession.load exSession.session_id (Except.ok [goodRow]) =
        some (sessionOfDump (dumpOf exSession)) ∧
      MySQLSession.load [120] (connOfDb []) = none ∧
      MySQLSession.load exSession.session_id (connOfDb [goodRow]) =
        some (sessionOfDump (dumpOf exSession)) ∧
      RedisSession.load [120] missingRedis = Except.ok none ∧
      RedisSession.load [120] okRedis =
        Except.ok (some (sessionOfDump (dumpOf exSession))) :=
  ⟨(C8_load_uniform_notfound [120] .ioError [] corruptRow (dumpOf exSession)
      (connOfDb []) missingRedis []).1,
    (C8_load_uniform_notfound [120] .ioError [] corruptRow (dumpOf exSession)
      (connOfDb []) missingRedis []).2.1 (by decide),
    (C8_load_uniform_notfound [120] .ioError [corruptRow] corruptRow
      (dumpOf exSession) (connOfDb []) missingRedis []).2.2.1
      (by decide) (by decide),
    (C8_load_uniform_notfound exSession.session_id .ioError [goodRow] goodRow
      (dumpOf exSession) (connOfDb []) missingRedis []).2.2.2.1
      (by decide) (by decide),
    (C8_load_uniform_notfound [120] .ioError [] corruptRow (dumpOf exSession)
      (connOfDb []) missingRedis []).2.2.2.2.2.1 (by rfl),
    (C8_load_uniform_notfound exSession.session_id .ioError [] goodRow
      (dumpOf exSession) (connOfDb [goodRow]) missingRedis []).2.2.2.2.2.2.2.1
      (by rfl) (by decide),
    (C8_load_uniform_notfound [120] .ioError [] corruptRow (dumpOf exSession)
      (connOfDb []) missingRedis []).2.2.2.2.2.2.2.2.1 (by rfl),
    (C8_load_uniform_notfound [120] .ioError [] corruptRow (dumpOf exSession)
      (connOfDb []) okRedis
      (BaseSession.serialize exSession ++ [58, 53])).2.2.2.2.2.2.2.2.2.2.2.1
      (by rfl) (by rfl) (by decide)⟩
